import Mathlib

/-!
Shallow embedding of TradeDeskCLI (`src/tradedeskcli.py`), a CLI that resolves a
ticker or company name and prints the current price.

External collaborators (the Yahoo search endpoint reached through `requests`, and
the yfinance quote source) are modelled as passive environments recording what
each call would return: `.error ()` stands for the call raising an exception,
`.ok v` for it returning `v`.  Python floats are modelled as rationals (`ℚ`);
`None`-able values as `Option`; Python truthiness of strings (`None` and `""`
are falsy) and of numbers (`0` is falsy) is made explicit.
-/

deriving instance DecidableEq for Except

/-- Python truthiness of an optional string: `None` and `""` are falsy. -/
def truthyOS : Option String → Bool
  | none => false
  | some s => !s.isEmpty

/-- Python truthiness of an optional number: `None` and `0` are falsy
(the `fi["last_price"]` test in `get_current_price`). -/
def truthyQ : Option ℚ → Bool
  | none => false
  | some q => !(decide (q = 0))

/-- Python `a or b` on optional strings, as in `q.get("shortname") or
q.get("longname") or q.get("symbol")` (line 46). -/
def pyOrS (a b : Option String) : Option String :=
  if truthyOS a then a else b

/-- One candidate of the search response body (`data["quotes"][i]`); every key
may be absent (`none`). -/
structure SearchQuote where
  symbol : Option String
  shortname : Option String
  longname : Option String
  quoteType : Option String
  exchange : Option String
  score : Option ℚ
  deriving DecidableEq

/-- The HTTP response to the search call (lines 33-40): `ok` is whether
`resp.raise_for_status()` passes; `body` is the parsed JSON (`.error ()` =
`resp.json()` raises), reduced to the value of its `quotes` key
(`none` = key absent or null). -/
structure SearchResp where
  ok : Bool
  body : Except Unit (Option (List SearchQuote))
  deriving DecidableEq

/-- The search transport for one invocation: `.error ()` = `requests.get`
itself raises (timeout, DNS, ...). -/
structure SearchEnv where
  resp : Except Unit SearchResp
  deriving DecidableEq

/-- The dict returned by `lookup_ticker_by_name` on success (lines 44-50). -/
structure SearchMatch where
  symbol : Option String
  name : Option String
  quoteType : Option String
  exchange : Option String
  score : Option ℚ
  deriving DecidableEq

/-- `lookup_ticker_by_name` (lines 27-52): any exception (transport, HTTP error
status, JSON parse) and an absent/empty `quotes` list all collapse to `none`;
otherwise the first candidate is kept, with display name
`shortname or longname or symbol` under Python truthiness. -/
def lookup_ticker_by_name (env : SearchEnv) : Option SearchMatch :=
  match env.resp with
  | .error _ => none
  | .ok r =>
    if !r.ok then none
    else
      match r.body with
      | .error _ => none
      | .ok qs =>
        match qs with
        | some (q :: _) =>
          some ⟨q.symbol, pyOrS q.shortname (pyOrS q.longname q.symbol),
                q.quoteType, q.exchange, q.score⟩
        | _ => none

/-- Quote-source responses for the queried ticker.  `ctor` models
`yf.Ticker(ticker)` (line 61).  `fastInfo`: `.ok (some q)` = `fast_info` is
truthy and carries a `last_price` of value `q`; `.ok none` = object falsy or
key absent; `.error ()` = the access raises (caught by the inner `try`).
`minuteHist` / `dailyHist`: the `Close` column of `t.history(period="1d",
interval="1m")` resp. `t.history(period="1d")`, one entry per row, `none`
entries being NaN; `.error ()` = the call raises. -/
structure Env where
  ctor : Except Unit Unit
  fastInfo : Except Unit (Option ℚ)
  minuteHist : Except Unit (List (Option ℚ))
  dailyHist : Except Unit (List (Option ℚ))
  deriving DecidableEq

/-- The three data sources of the price-fetch chain, for recording which
network calls an execution performs. -/
inductive PriceSrc
  | fast
  | minute
  | daily
  deriving DecidableEq

/-- Value of the fast-price step (lines 63-68): the fast field, accepted only
when the access does not raise, the key is present and the value is truthy
(non-zero). -/
def step1val : Except Unit (Option ℚ) → Option ℚ
  | .ok (some q) => if q = 0 then none else some q
  | _ => none

/-- `hist["Close"].dropna().iloc[-1]`: last non-missing close; `none` when
`dropna` leaves nothing (in which case `iloc[-1]` raises IndexError in the
source, caught by the outer `except` which also yields `None`). -/
def lastNonMissing (l : List (Option ℚ)) : Option ℚ :=
  (l.filterMap id).getLast?

/-- `get_current_price` (lines 55-81), instrumented with the list of sources
the execution touches.  Only the fast-price access sits in an inner
`try/except`; the whole body sits in an outer `try/except` returning `None`,
so an exception in a history call (or an all-NaN non-empty history, whose
`iloc[-1]` raises) ends the chain without consulting later sources. -/
def get_current_price_t (env : Env) : Option ℚ × List PriceSrc :=
  match env.ctor with
  | .error _ => (none, [])
  | .ok _ =>
    match step1val env.fastInfo with
    | some q => (some q, [.fast])
    | none =>
      match env.minuteHist with
      | .error _ => (none, [.fast, .minute])
      | .ok hist =>
        if !hist.isEmpty then
          (lastNonMissing hist, [.fast, .minute])
        else
          match env.dailyHist with
          | .error _ => (none, [.fast, .minute, .daily])
          | .ok h2 =>
            if !h2.isEmpty then
              (lastNonMissing h2, [.fast, .minute, .daily])
            else
              (none, [.fast, .minute, .daily])

/-- `get_current_price` proper: the returned optional price. -/
def get_current_price (env : Env) : Option ℚ :=
  (get_current_price_t env).1

/-- The JSON payload dict built in `search_command` (lines 115-120). -/
structure Payload where
  ticker : Option String
  name : Option String
  price : Option ℚ
  success : Bool
  deriving DecidableEq

/-- Observable outcome of one `search` invocation: process exit code, the
strings passed to `typer.echo`, whether the resolver and the price fetcher ran
(and with which ticker), the computed display name, and the rendered payload
(JSON mode) or table row (table mode; the price cell is kept as the optional
number, `none` standing for the N/A marker). -/
structure RunResult where
  exitCode : ℕ
  echoed : List String
  resolverCalled : Bool
  fetchArg : Option (Option String)
  assetName : Option String
  payload : Option Payload
  tableRow : Option (Option String × String × Option ℚ)
  deriving DecidableEq

/-- JSON string escaping as `json.dumps` performs it for the characters that
can occur here (backslash, quote, common control characters). -/
def jsonEscapeChar (c : Char) : List Char :=
  if c = '\\' then ['\\', '\\']
  else if c = '\x22' then ['\\', '\x22']
  else if c = '\n' then ['\\', 'n']
  else if c = '\t' then ['\\', 't']
  else if c = '\r' then ['\\', 'r']
  else [c]

/-- A JSON string literal for `s`. -/
def jsonString (s : String) : String :=
  "\x22" ++ String.mk (s.data.flatMap jsonEscapeChar) ++ "\x22"

/-- Python `repr` of a float whose value is exactly a decimal fraction, as
`json.dumps` renders numbers (shortest decimal digits; integers get a trailing
`.0`).  Rationals with no finite decimal expansion cannot arise as the shortest
repr of a binary float; they render as a fraction. -/
def floatRepr (q : ℚ) : String :=
  let sign := if q.num < 0 then "-" else ""
  let n := q.num.natAbs
  let d := q.den
  match (List.range 31).find? (fun k => decide (d ∣ 10 ^ k)) with
  | some 0 => sign ++ toString n ++ ".0"
  | some k =>
    let m := n * 10 ^ k / d
    let ip := m / 10 ^ k
    let fp := m % 10 ^ k
    let fs := toString fp
    let pad := String.mk (List.replicate (k - fs.length) '0')
    sign ++ toString ip ++ "." ++ pad ++ fs
  | none => sign ++ toString n ++ "/" ++ toString d

/-- `json.dumps(payload, indent=2)` (line 121) for the four-key payload dict:
keys in insertion order, each on its own line indented by two spaces. -/
def dumpsPayload (p : Payload) : String :=
  let tv := match p.ticker with
    | none => "null"
    | some s => jsonString s
  let nv := match p.name with
    | none => "null"
    | some s => jsonString s
  let pv := match p.price with
    | none => "null"
    | some q => floatRepr q
  "\x7b\n  \x22ticker\x22: " ++ tv ++ ",\n  \x22name\x22: " ++ nv ++
    ",\n  \x22price\x22: " ++ pv ++ ",\n  \x22success\x22: " ++
    (if p.success then "true" else "false") ++ "\n\x7d"

/-- Output part of `search_command` (lines 114-134), once `ticker`,
`asset_name` and `price` are computed: the JSON branch echoes the indent-2
dump of the payload and exits 0 via the plain `typer.Exit()`; the table branch
renders one row (`ticker or "-"` in the middle cell) and falls through, also
exiting 0. -/
def render (ticker asset_name : Option String) (doResolve json_out : Bool)
    (price : Option ℚ) : RunResult :=
  if json_out then
    ⟨0, [dumpsPayload ⟨ticker, asset_name, price, price.isSome⟩], doResolve,
     some ticker, asset_name, some ⟨ticker, asset_name, price, price.isSome⟩, none⟩
  else
    let tdash := match ticker with
      | some s => if s.isEmpty then "-" else s
      | none => "-"
    ⟨0, [], doResolve, some ticker, asset_name, none,
     some (asset_name, tdash, price)⟩

/-- `search_command` (lines 84-134).  `ticker` / `name` are the option values
(`none` = not supplied); `senv` / `penv` are the external services' behavior
for this invocation.  `typer.Exit(code=2)` / `code=1` set the error exit
codes; both output branches exit 0 (see `render`). -/
def search_command (ticker name : Option String) (json_out : Bool)
    (senv : SearchEnv) (penv : Env) : RunResult :=
  if !truthyOS ticker && !truthyOS name then
    ⟨2, ["Provide --ticker or --name (see --help)."], false, none, none, none, none⟩
  else
    let doResolve := truthyOS name && !truthyOS ticker
    let resolved := if doResolve then lookup_ticker_by_name senv else none
    if doResolve && !truthyOS (resolved.bind SearchMatch.symbol) then
      ⟨1, ["No results for name: \x22" ++ name.getD "" ++ "\x22."],
       doResolve, none, none, none, none⟩
    else
      let ticker := if doResolve then resolved.bind SearchMatch.symbol else ticker
      let price := get_current_price penv
      let asset_name :=
        if truthyOS (resolved.bind SearchMatch.name) then resolved.bind SearchMatch.name
        else if !truthyOS name then ticker else name
      render ticker asset_name doResolve json_out price

/-! ### Spec-side model of the fallback chain (for refinement comparison) -/

/-- Last non-missing close of a history response, an erroring call counting as
having none. -/
def lastNonMissingE : Except Unit (List (Option ℚ)) → Option ℚ
  | .ok l => lastNonMissing l
  | .error _ => none

/-- Modelled from the spec's words (refinement model, §4.2 / C1-C2): the
three-step chain in which each later step is attempted exactly when the
previous yielded nothing — fast field if present and non-zero, else last
non-missing minute close, else last non-missing daily close. -/
def fetchPrice_specChain (env : Env) : Option ℚ :=
  match step1val env.fastInfo with
  | some q => some q
  | none =>
    match lastNonMissingE env.minuteHist with
    | some c => some c
    | none => lastNonMissingE env.dailyHist


/-- The rational 150.1234 in lowest terms (num/den reduce definitionally,
unlike a `/` literal, so concrete runs can be evaluated by `decide`). -/
def q150_1234 : ℚ := ⟨750617, 5000, by norm_num, by norm_num⟩

/-! ### Helper lemmas -/

lemma truthyOS_pyOrS (a b : Option String) :
    truthyOS (pyOrS a b) = (truthyOS a || truthyOS b) := by
  cases h : truthyOS a <;> simp [pyOrS, h]

lemma gcp_hist (m d : List (Option ℚ)) :
    get_current_price ⟨.ok (), .ok none, .ok m, .ok d⟩ =
      if m.isEmpty then (if d.isEmpty then none else lastNonMissing d)
      else lastNonMissing m := by
  cases m with
  | nil =>
    cases hd : d.isEmpty <;>
      simp [get_current_price, get_current_price_t, step1val, hd]
  | cons a t =>
    simp [get_current_price, get_current_price_t, step1val]

/-! ### C1 -/

/-- C1 (counterexample): with the fast field absent, a one-row minute history
whose only close is missing, and a daily history with close 42, the spec's
chain returns 42 but `get_current_price` returns `None` — the all-missing
minute history makes `iloc[-1]` raise, the outer `except` swallows it, and the
daily history is never consulted. -/
theorem price_fetch_skips_daily_on_all_missing_minute :
    fetchPrice_specChain ⟨.ok (), .ok none, .ok [none], .ok [some 42]⟩ = some 42
    ∧ get_current_price ⟨.ok (), .ok none, .ok [none], .ok [some 42]⟩ = none := by
  constructor <;> rfl

/-- C1 (amended): on non-erroring responses the chain is — fast field if
present and non-zero (history never consulted); else, if minute history is
non-empty, its last non-missing close (`None` when every close is missing, and
daily history is not consulted in that case); daily history is consulted only
when minute history is empty, yielding its last non-missing close. -/
theorem price_fetch_fallback_chain :
    (∀ (f : Option ℚ) (m d : List (Option ℚ)),
      get_current_price ⟨.ok (), .ok f, .ok m, .ok d⟩ =
        if truthyQ f then f
        else if m.isEmpty then (if d.isEmpty then none else lastNonMissing d)
        else lastNonMissing m)
    ∧ (∀ (f : Option ℚ) (m d : List (Option ℚ)), truthyQ f = true →
      (get_current_price_t ⟨.ok (), .ok f, .ok m, .ok d⟩).2 = [PriceSrc.fast])
    ∧ (∀ (f : Except Unit (Option ℚ)) (m : List (Option ℚ))
        (d : Except Unit (List (Option ℚ))), m ≠ [] →
      PriceSrc.daily ∉ (get_current_price_t ⟨.ok (), f, .ok m, d⟩).2) := by
  refine ⟨?_, ?_, ?_⟩
  · intro f m d
    have hbase := gcp_hist m d
    cases f with
    | none => simpa [truthyQ] using hbase
    | some q =>
      by_cases hq : q = 0
      · have hsame : get_current_price ⟨.ok (), .ok (some q), .ok m, .ok d⟩ =
            get_current_price ⟨.ok (), .ok none, .ok m, .ok d⟩ := by
          simp [get_current_price, get_current_price_t, step1val, hq]
        rw [hsame, hbase]
        simp [truthyQ, hq]
      · simp [get_current_price, get_current_price_t, step1val, truthyQ, hq]
  · intro f m d hf
    cases f with
    | none => simp [truthyQ] at hf
    | some q =>
      have hq : ¬(q = 0) := by
        simp [truthyQ] at hf
        exact hf
      simp [get_current_price_t, step1val, hq]
  · intro f m d hm
    cases hs : step1val f with
    | some q => simp [get_current_price_t, hs]
    | none =>
      cases m with
      | nil => exact absurd rfl hm
      | cons a t => simp [get_current_price_t, hs]

/-- Witness for `price_fetch_fallback_chain` at concrete inputs. -/
theorem price_fetch_fallback_chain_witness :
    (get_current_price_t ⟨.ok (), .ok (some 3), .ok [], .ok []⟩).2 = [PriceSrc.fast]
    ∧ PriceSrc.daily ∉ (get_current_price_t ⟨.ok (), .ok none, .ok [some 5], .ok []⟩).2 :=
  ⟨price_fetch_fallback_chain.2.1 (some 3) [] [] (by decide),
   price_fetch_fallback_chain.2.2 (.ok none) [some 5] (.ok []) (by decide)⟩

/-! ### C2 -/

/-- C2 (counterexample): when the minute-history call raises while the daily
history has close 7, the spec's "proceed to the next step" chain yields 7, but
`get_current_price` returns `None`: the exception lands in the outer `except`
and step 3 is never attempted. -/
theorem price_fetch_history_error_not_forwarded :
    fetchPrice_specChain ⟨.ok (), .ok none, .error (), .ok [some 7]⟩ = some 7
    ∧ get_current_price ⟨.ok (), .ok none, .error (), .ok [some 7]⟩ = none := by
  constructor <;> rfl

/-- C2 (amended): no exception ever propagates (the fetcher totalizes to an
optional price), and an exception in the fast-price step is treated as that
step yielding nothing, the chain proceeding to history; but an exception in
the minute- or daily-history step (or in the `yf.Ticker` constructor) aborts
the remaining steps and yields "unavailable" immediately. -/
theorem price_fetch_exception_handling :
    (∀ (m : Except Unit (List (Option ℚ))) (d : Except Unit (List (Option ℚ))),
      get_current_price ⟨.ok (), .error (), m, d⟩ =
        get_current_price ⟨.ok (), .ok none, m, d⟩)
    ∧ (∀ (f : Except Unit (Option ℚ)) (d : Except Unit (List (Option ℚ))),
      get_current_price ⟨.ok (), f, .error (), d⟩ = step1val f)
    ∧ (∀ (f : Except Unit (Option ℚ)),
      get_current_price ⟨.ok (), f, .ok [], .error ()⟩ = step1val f)
    ∧ (∀ (f : Except Unit (Option ℚ)) (m d : Except Unit (List (Option ℚ))),
      get_current_price ⟨.error (), f, m, d⟩ = none) := by
  refine ⟨fun m d => rfl, ?_, ?_, fun f m d => rfl⟩
  · intro f d
    cases hs : step1val f with
    | some q => simp [get_current_price, get_current_price_t, hs]
    | none => simp [get_current_price, get_current_price_t, hs]
  · intro f
    cases hs : step1val f with
    | some q => simp [get_current_price, get_current_price_t, hs]
    | none => simp [get_current_price, get_current_price_t, hs]

/-! ### Branch lemmas for the orchestration -/

lemma truthyOS_none : truthyOS none = false := rfl

lemma truthyOS_some_of_ne (s : String) (h : s ≠ "") :
    truthyOS (some s) = true := by
  cases he : s.isEmpty with
  | false => simp [truthyOS, he]
  | true => exact absurd ((String.isEmpty_iff s).mp he) h

lemma q150_eq : q150_1234 = (1501234/10000 : ℚ) := by
  unfold q150_1234
  rw [Rat.mk'_eq_divInt, Rat.divInt_eq_div]
  norm_num

lemma gcp_fast (q : ℚ) (hq : q ≠ 0) (m d : Except Unit (List (Option ℚ))) :
    get_current_price ⟨.ok (), .ok (some q), m, d⟩ = some q := by
  simp [get_current_price, get_current_price_t, step1val, hq]

lemma search_command_exit2 (t n : Option String) (j : Bool)
    (senv : SearchEnv) (penv : Env)
    (ht : truthyOS t = false) (hn : truthyOS n = false) :
    search_command t n j senv penv =
      ⟨2, ["Provide --ticker or --name (see --help)."],
       false, none, none, none, none⟩ := by
  simp [search_command, ht, hn]

lemma search_command_exit1 (t n : Option String) (j : Bool)
    (senv : SearchEnv) (penv : Env)
    (hn : truthyOS n = true) (ht : truthyOS t = false)
    (hr : truthyOS ((lookup_ticker_by_name senv).bind SearchMatch.symbol) = false) :
    search_command t n j senv penv =
      ⟨1, ["No results for name: \x22" ++ n.getD "" ++ "\x22."],
       true, none, none, none, none⟩ := by
  simp [search_command, ht, hn, hr]

lemma search_command_resolved (t n : Option String) (j : Bool)
    (senv : SearchEnv) (penv : Env) (m : SearchMatch)
    (hn : truthyOS n = true) (ht : truthyOS t = false)
    (hm : lookup_ticker_by_name senv = some m)
    (hs : truthyOS m.symbol = true) :
    search_command t n j senv penv =
      render m.symbol (if truthyOS m.name then m.name else n) true j
        (get_current_price penv) := by
  simp [search_command, ht, hn, hm, hs]

lemma search_command_direct (t n : Option String) (j : Bool)
    (senv : SearchEnv) (penv : Env)
    (ht : truthyOS t = true) :
    search_command t n j senv penv =
      render t (if truthyOS n then n else t) false j
        (get_current_price penv) := by
  by_cases hn : truthyOS n = true
  · simp [search_command, ht, hn, truthyOS_none]
  · simp at hn
    simp [search_command, ht, hn, truthyOS_none]

lemma render_fields (tk an : Option String) (dr j : Bool) (pr : Option ℚ) :
    (render tk an dr j pr).exitCode = 0
    ∧ (render tk an dr j pr).resolverCalled = dr
    ∧ (render tk an dr j pr).fetchArg = some tk
    ∧ (render tk an dr j pr).assetName = an := by
  cases j <;> simp [render]

lemma lookup_name_truthy (senv : SearchEnv) (m : SearchMatch)
    (h : lookup_ticker_by_name senv = some m)
    (hs : truthyOS m.symbol = true) : truthyOS m.name = true := by
  rcases senv with ⟨resp⟩
  cases resp with
  | error e => simp [lookup_ticker_by_name] at h
  | ok r =>
    rcases r with ⟨rok, rbody⟩
    cases rok with
    | false => simp [lookup_ticker_by_name] at h
    | true =>
      cases rbody with
      | error e => simp [lookup_ticker_by_name] at h
      | ok qs =>
        match qs with
        | none => simp [lookup_ticker_by_name] at h
        | some [] => simp [lookup_ticker_by_name] at h
        | some (q :: rest) =>
          simp [lookup_ticker_by_name] at h
          subst h
          simp [truthyOS_pyOrS] at hs ⊢
          simp [hs]

lemma render_payload_success (tk an : Option String) (dr j : Bool)
    (pr : Option ℚ) :
    ∀ p : Payload, (render tk an dr j pr).payload = some p →
      (p.success = true ↔ p.price.isSome = true) := by
  intro p hp
  cases j with
  | false => simp [render] at hp
  | true =>
    simp only [render, if_true] at hp
    simp only [Option.some.injEq] at hp
    subst hp
    exact Iff.rfl

/-! ### C3 -/

/-- C3 (counterexample): with `--ticker AAPL --json` and the price fetch
yielding 150.1234, the echoed output is not the claimed compact one-line
string — `json.dumps(payload, indent=2)` pretty-prints over several lines. -/
theorem json_output_not_compact :
    get_current_price ⟨.ok (), .ok (some (1501234/10000 : ℚ)), .ok [], .ok []⟩ =
      some (1501234/10000 : ℚ)
    ∧ (search_command (some "AAPL") none true ⟨.error ()⟩
        ⟨.ok (), .ok (some (1501234/10000 : ℚ)), .ok [], .ok []⟩).echoed ≠
      ["\x7b\x22ticker\x22: \x22AAPL\x22, \x22name\x22: \x22AAPL\x22, \x22price\x22: 150.1234, \x22success\x22: true\x7d"] := by
  constructor
  · exact gcp_fast _ (by norm_num) _ _
  · rw [search_command_direct (some "AAPL") none true ⟨.error ()⟩ _ (by decide),
      gcp_fast _ (by norm_num) _ _, ← q150_eq]
    decide

/-- C3 (amended): with `--ticker AAPL --json` and the price fetch yielding
150.1234, the program echoes exactly the indent-2 pretty-printed JSON object
with those four key/value pairs, and exits 0. -/
theorem json_output_pretty (senv : SearchEnv) (penv : Env)
    (h : get_current_price penv = some (1501234/10000 : ℚ)) :
    (search_command (some "AAPL") none true senv penv).echoed =
      ["\x7b\n  \x22ticker\x22: \x22AAPL\x22,\n  \x22name\x22: \x22AAPL\x22,\n  \x22price\x22: 150.1234,\n  \x22success\x22: true\n\x7d"]
    ∧ (search_command (some "AAPL") none true senv penv).exitCode = 0 := by
  rw [search_command_direct (some "AAPL") none true senv penv (by decide), h,
    ← q150_eq]
  exact ⟨by decide, by decide⟩

/-- Witness for `json_output_pretty` at a concrete quote environment. -/
theorem json_output_pretty_witness :
    get_current_price ⟨.ok (), .ok (some (1501234/10000 : ℚ)), .ok [], .ok []⟩ =
      some (1501234/10000 : ℚ)
    ∧ (search_command (some "AAPL") none true ⟨.error ()⟩
        ⟨.ok (), .ok (some (1501234/10000 : ℚ)), .ok [], .ok []⟩).echoed =
      ["\x7b\n  \x22ticker\x22: \x22AAPL\x22,\n  \x22name\x22: \x22AAPL\x22,\n  \x22price\x22: 150.1234,\n  \x22success\x22: true\n\x7d"] :=
  ⟨gcp_fast _ (by norm_num) _ _,
   (json_output_pretty ⟨.error ()⟩ _ (gcp_fast _ (by norm_num) _ _)).1⟩

/-! ### C4 -/

/-- C4: in every payload the program constructs, the price is present iff
`success` is true; and whenever the price fetch ran (available or not) the
exit code is 0 — unavailability is reported, not raised. -/
theorem payload_success_iff_price (t n : Option String) (j : Bool)
    (senv : SearchEnv) (penv : Env) :
    (∀ p : Payload, (search_command t n j senv penv).payload = some p →
      (p.success = true ↔ p.price.isSome = true))
    ∧ ((search_command t n j senv penv).fetchArg.isSome = true →
      (search_command t n j senv penv).exitCode = 0) := by
  cases ht : truthyOS t with
  | true =>
    rw [search_command_direct t n j senv penv ht]
    exact ⟨render_payload_success _ _ _ _ _, fun _ => (render_fields _ _ _ _ _).1⟩
  | false =>
    cases hn : truthyOS n with
    | false =>
      rw [search_command_exit2 t n j senv penv ht hn]
      exact ⟨fun p hp => by simp at hp, fun hf => by simp at hf⟩
    | true =>
      cases hlk : lookup_ticker_by_name senv with
      | none =>
        rw [search_command_exit1 t n j senv penv hn ht (by simp [hlk, truthyOS_none])]
        exact ⟨fun p hp => by simp at hp, fun hf => by simp at hf⟩
      | some m =>
        cases hs : truthyOS m.symbol with
        | false =>
          rw [search_command_exit1 t n j senv penv hn ht (by simp [hlk, hs])]
          exact ⟨fun p hp => by simp at hp, fun hf => by simp at hf⟩
        | true =>
          rw [search_command_resolved t n j senv penv m hn ht hlk hs]
          exact ⟨render_payload_success _ _ _ _ _, fun _ => (render_fields _ _ _ _ _).1⟩

/-- Witness for `payload_success_iff_price`: an invocation whose price fetch
finds nothing yields `success = false` with a null price and exit code 0. -/
theorem payload_success_iff_price_witness :
    ((false : Bool) = true ↔ (none : Option ℚ).isSome = true)
    ∧ (search_command (some "A") none true ⟨.error ()⟩
        ⟨.ok (), .ok none, .ok [], .ok []⟩).exitCode = 0 :=
  ⟨(payload_success_iff_price (some "A") none true ⟨.error ()⟩
      ⟨.ok (), .ok none, .ok [], .ok []⟩).1 ⟨some "A", some "A", none, false⟩
      (by decide),
   (payload_success_iff_price (some "A") none true ⟨.error ()⟩
      ⟨.ok (), .ok none, .ok [], .ok []⟩).2 (by decide)⟩

/-! ### C5 -/

/-- C5: with a (truthy) name and no (truthy) ticker, if the resolver yields no
match or a match without a truthy symbol, the program exits with code 1 and
never invokes the price fetcher. -/
theorem name_resolution_failure_exits_one (t n : Option String) (j : Bool)
    (senv : SearchEnv) (penv : Env)
    (hn : truthyOS n = true) (ht : truthyOS t = false)
    (hr : truthyOS ((lookup_ticker_by_name senv).bind SearchMatch.symbol) = false) :
    (search_command t n j senv penv).exitCode = 1
    ∧ (search_command t n j senv penv).resolverCalled = true
    ∧ (search_command t n j senv penv).fetchArg = none := by
  rw [search_command_exit1 t n j senv penv hn ht hr]
  exact ⟨rfl, rfl, rfl⟩

/-- Witness for `name_resolution_failure_exits_one`: an erroring search. -/
theorem name_resolution_failure_exits_one_witness :
    (search_command none (some "Zzz") true ⟨.error ()⟩
        ⟨.ok (), .ok none, .ok [], .ok []⟩).exitCode = 1
    ∧ (search_command none (some "Zzz") true ⟨.error ()⟩
        ⟨.ok (), .ok none, .ok [], .ok []⟩).resolverCalled = true
    ∧ (search_command none (some "Zzz") true ⟨.error ()⟩
        ⟨.ok (), .ok none, .ok [], .ok []⟩).fetchArg = none :=
  name_resolution_failure_exits_one none (some "Zzz") true ⟨.error ()⟩
    ⟨.ok (), .ok none, .ok [], .ok []⟩ (by decide) (by decide) (by decide)

/-! ### C6 -/

/-- C6: with neither `--ticker` nor `--name`, the program exits with code 2
and performs no network calls: neither the resolver nor the price fetcher
runs. -/
theorem missing_inputs_exit_two (j : Bool) (senv : SearchEnv) (penv : Env) :
    (search_command none none j senv penv).exitCode = 2
    ∧ (search_command none none j senv penv).resolverCalled = false
    ∧ (search_command none none j senv penv).fetchArg = none := by
  rw [search_command_exit2 none none j senv penv rfl rfl]
  exact ⟨rfl, rfl, rfl⟩

/-! ### C7 -/

/-- C7: the resolver maps every failure mode — transport error, non-success
HTTP status, malformed body, absent or empty match list — to the same `none`
(it is a total function, so no exception propagates and the modes are not
distinguished); on success it keeps the first candidate's symbol and picks
the display name as `shortname or longname or symbol`. -/
theorem resolver_collapse_and_success_shape :
    lookup_ticker_by_name ⟨.error ()⟩ = none
    ∧ (∀ body : Except Unit (Option (List SearchQuote)),
        lookup_ticker_by_name ⟨.ok ⟨false, body⟩⟩ = none)
    ∧ (∀ st : Bool, lookup_ticker_by_name ⟨.ok ⟨st, .error ()⟩⟩ = none)
    ∧ lookup_ticker_by_name ⟨.ok ⟨true, .ok none⟩⟩ = none
    ∧ lookup_ticker_by_name ⟨.ok ⟨true, .ok (some [])⟩⟩ = none
    ∧ (∀ (q : SearchQuote) (rest : List SearchQuote),
        lookup_ticker_by_name ⟨.ok ⟨true, .ok (some (q :: rest))⟩⟩ =
          some ⟨q.symbol, pyOrS q.shortname (pyOrS q.longname q.symbol),
                q.quoteType, q.exchange, q.score⟩) := by
  refine ⟨rfl, fun body => rfl, ?_, rfl, rfl, fun q rest => rfl⟩
  intro st
  cases st <;> rfl

/-! ### C8 -/

/-- C8: display-name precedence — the resolver's match name when the resolver
ran and succeeded; else the supplied name; else the ticker symbol itself. -/
theorem display_name_precedence (t n : Option String) (j : Bool)
    (senv : SearchEnv) (penv : Env) :
    (∀ m : SearchMatch, truthyOS n = true → truthyOS t = false →
      lookup_ticker_by_name senv = some m → truthyOS m.symbol = true →
      (search_command t n j senv penv).assetName = m.name)
    ∧ (truthyOS t = true → truthyOS n = true →
      (search_command t n j senv penv).assetName = n)
    ∧ (truthyOS t = true → truthyOS n = false →
      (search_command t n j senv penv).assetName = t) := by
  refine ⟨?_, ?_, ?_⟩
  · intro m hn ht hlk hs
    rw [search_command_resolved t n j senv penv m hn ht hlk hs,
      (render_fields _ _ _ _ _).2.2.2]
    simp [lookup_name_truthy senv m hlk hs]
  · intro ht hn
    rw [search_command_direct t n j senv penv ht,
      (render_fields _ _ _ _ _).2.2.2]
    simp [hn]
  · intro ht hn
    rw [search_command_direct t n j senv penv ht,
      (render_fields _ _ _ _ _).2.2.2]
    simp [hn]

/-- Witness for `display_name_precedence`, exercising all three precedence
levels at concrete inputs. -/
theorem display_name_precedence_witness :
    (search_command none (some "Apple") false
        ⟨.ok ⟨true, .ok (some [⟨some "AAPL", some "Apple Inc.", none, none, none, none⟩])⟩⟩
        ⟨.ok (), .ok none, .ok [], .ok []⟩).assetName = some "Apple Inc."
    ∧ (search_command (some "TSLA") (some "Tesla") false ⟨.error ()⟩
        ⟨.ok (), .ok none, .ok [], .ok []⟩).assetName = some "Tesla"
    ∧ (search_command (some "TSLA") none false ⟨.error ()⟩
        ⟨.ok (), .ok none, .ok [], .ok []⟩).assetName = some "TSLA" :=
  ⟨(display_name_precedence none (some "Apple") false
      ⟨.ok ⟨true, .ok (some [⟨some "AAPL", some "Apple Inc.", none, none, none, none⟩])⟩⟩
      ⟨.ok (), .ok none, .ok [], .ok []⟩).1
      ⟨some "AAPL", some "Apple Inc.", none, none, none⟩
      (by decide) (by decide) (by decide) (by decide),
   (display_name_precedence (some "TSLA") (some "Tesla") false ⟨.error ()⟩
      ⟨.ok (), .ok none, .ok [], .ok []⟩).2.1 (by decide) (by decide),
   (display_name_precedence (some "TSLA") none false ⟨.error ()⟩
      ⟨.ok (), .ok none, .ok [], .ok []⟩).2.2 (by decide) (by decide)⟩

/-! ### C9 -/

/-- C9: with both a non-empty ticker and a non-empty name supplied, the
resolver never runs, the price is fetched for the supplied ticker as-is, the
display name is the supplied name, and the run exits 0. -/
theorem both_options_skip_resolver (s m : String) (j : Bool)
    (senv : SearchEnv) (penv : Env) (hs : s ≠ "") (hm : m ≠ "") :
    (search_command (some s) (some m) j senv penv).resolverCalled = false
    ∧ (search_command (some s) (some m) j senv penv).fetchArg = some (some s)
    ∧ (search_command (some s) (some m) j senv penv).assetName = some m
    ∧ (search_command (some s) (some m) j senv penv).exitCode = 0 := by
  have ht : truthyOS (some s) = true := truthyOS_some_of_ne s hs
  have hn : truthyOS (some m) = true := truthyOS_some_of_ne m hm
  rw [search_command_direct (some s) (some m) j senv penv ht]
  refine ⟨(render_fields _ _ _ _ _).2.1, (render_fields _ _ _ _ _).2.2.1, ?_,
    (render_fields _ _ _ _ _).1⟩
  rw [(render_fields _ _ _ _ _).2.2.2]
  simp [hn]

/-- Witness for `both_options_skip_resolver`. -/
theorem both_options_skip_resolver_witness :
    (search_command (some "TSLA") (some "Tesla") true ⟨.error ()⟩
        ⟨.ok (), .ok none, .ok [], .ok []⟩).resolverCalled = false
    ∧ (search_command (some "TSLA") (some "Tesla") true ⟨.error ()⟩
        ⟨.ok (), .ok none, .ok [], .ok []⟩).fetchArg = some (some "TSLA")
    ∧ (search_command (some "TSLA") (some "Tesla") true ⟨.error ()⟩
        ⟨.ok (), .ok none, .ok [], .ok []⟩).assetName = some "Tesla"
    ∧ (search_command (some "TSLA") (some "Tesla") true ⟨.error ()⟩
        ⟨.ok (), .ok none, .ok [], .ok []⟩).exitCode = 0 :=
  both_options_skip_resolver "TSLA" "Tesla" true ⟨.error ()⟩
    ⟨.ok (), .ok none, .ok [], .ok []⟩ (by decide) (by decide)

/-! ### C10 -/

/-- C10: an empty-string option value behaves like an absent option — both
falsy (empty or missing) exits 2 before any network call, and an empty ticker
with a non-empty name runs identically to the name-only invocation. -/
theorem empty_options_treated_absent (j : Bool) (senv : SearchEnv) (penv : Env) :
    (∀ t n : Option String, truthyOS t = false → truthyOS n = false →
      (search_command t n j senv penv).exitCode = 2
      ∧ (search_command t n j senv penv).resolverCalled = false
      ∧ (search_command t n j senv penv).fetchArg = none)
    ∧ (∀ nm : String, nm ≠ "" →
      search_command (some "") (some nm) j senv penv =
        search_command none (some nm) j senv penv) := by
  constructor
  · intro t n ht hn
    rw [search_command_exit2 t n j senv penv ht hn]
    exact ⟨rfl, rfl, rfl⟩
  · intro nm hnm
    have hn : truthyOS (some nm) = true := truthyOS_some_of_ne nm hnm
    cases hlk : lookup_ticker_by_name senv with
    | none =>
      have hr : truthyOS ((lookup_ticker_by_name senv).bind SearchMatch.symbol) = false := by
        simp [hlk, truthyOS_none]
      rw [search_command_exit1 (some "") (some nm) j senv penv hn rfl hr,
        search_command_exit1 none (some nm) j senv penv hn rfl hr]
    | some m =>
      cases hsym : truthyOS m.symbol with
      | false =>
        have hr : truthyOS ((lookup_ticker_by_name senv).bind SearchMatch.symbol) = false := by
          simp [hlk, hsym]
        rw [search_command_exit1 (some "") (some nm) j senv penv hn rfl hr,
          search_command_exit1 none (some nm) j senv penv hn rfl hr]
      | true =>
        rw [search_command_resolved (some "") (some nm) j senv penv m hn rfl hlk hsym,
          search_command_resolved none (some nm) j senv penv m hn rfl hlk hsym]

/-- Witness for `empty_options_treated_absent` at concrete inputs. -/
theorem empty_options_treated_absent_witness :
    ((search_command (some "") (some "") false ⟨.error ()⟩
        ⟨.ok (), .ok none, .ok [], .ok []⟩).exitCode = 2
      ∧ (search_command (some "") (some "") false ⟨.error ()⟩
        ⟨.ok (), .ok none, .ok [], .ok []⟩).resolverCalled = false
      ∧ (search_command (some "") (some "") false ⟨.error ()⟩
        ⟨.ok (), .ok none, .ok [], .ok []⟩).fetchArg = none)
    ∧ search_command (some "") (some "Apple") false ⟨.error ()⟩
        ⟨.ok (), .ok none, .ok [], .ok []⟩ =
      search_command none (some "Apple") false ⟨.error ()⟩
        ⟨.ok (), .ok none, .ok [], .ok []⟩ :=
  ⟨(empty_options_treated_absent false ⟨.error ()⟩
      ⟨.ok (), .ok none, .ok [], .ok []⟩).1 (some "") (some "")
      (by decide) (by decide),
   (empty_options_treated_absent false ⟨.error ()⟩
      ⟨.ok (), .ok none, .ok [], .ok []⟩).2 "Apple" (by decide)⟩
